import Mathlib

/-!
Verification development for the kiss-icp Python layer.

The repository's Python sources are `kiss_icp/kiss_icp.py` (a thin wrapper
class `KissICP` around the native pybind pipeline `kiss_icp_pybind._KissICP`)
and `kiss_icp/config/parser.py` (configuration loading and the conversion of
the nested pydantic configuration into the flat native `_KISSConfig` struct).

The native C++ core (`kiss_icp_pybind`) and the pydantic sub-configuration
module (`kiss_icp/config/config.py`) are not part of the available sources;
the definitions for them below are modelled from the specification and are
marked as such in their doc comments.  Every other definition is a direct
shallow embedding of the Python source.  Real-valued quantities are embedded
as rationals.
-/

namespace Native

/-- Modelled from the spec (data model, Point3D): a 3D point with rational
coordinates standing for the double-precision coordinates of the core. -/
structure Point where
  x : ℚ
  y : ℚ
  z : ℚ
deriving DecidableEq

instance : Add Point := ⟨fun a b => ⟨a.x + b.x, a.y + b.y, a.z + b.z⟩⟩

instance : Sub Point := ⟨fun a b => ⟨a.x - b.x, a.y - b.y, a.z - b.z⟩⟩

instance : Neg Point := ⟨fun a => ⟨-a.x, -a.y, -a.z⟩⟩

/-- Squared Euclidean norm of a point. -/
def normSq (p : Point) : ℚ := p.x * p.x + p.y * p.y + p.z * p.z

/-- Squared Euclidean distance between two points. -/
def distSq (p q : Point) : ℚ := normSq (p - q)

/-- Modelled from the spec (data model, Pose): a 3x3 matrix, written with
explicit entries so that all operations are plain rational arithmetic. -/
structure Mat3 where
  m00 : ℚ
  m01 : ℚ
  m02 : ℚ
  m10 : ℚ
  m11 : ℚ
  m12 : ℚ
  m20 : ℚ
  m21 : ℚ
  m22 : ℚ
deriving DecidableEq

/-- Identity 3x3 matrix. -/
def Mat3.id : Mat3 := ⟨1, 0, 0, 0, 1, 0, 0, 0, 1⟩

/-- Matrix transpose. -/
def Mat3.transpose (A : Mat3) : Mat3 :=
  ⟨A.m00, A.m10, A.m20, A.m01, A.m11, A.m21, A.m02, A.m12, A.m22⟩

/-- Matrix product. -/
def Mat3.mul (A B : Mat3) : Mat3 :=
  ⟨A.m00 * B.m00 + A.m01 * B.m10 + A.m02 * B.m20,
   A.m00 * B.m01 + A.m01 * B.m11 + A.m02 * B.m21,
   A.m00 * B.m02 + A.m01 * B.m12 + A.m02 * B.m22,
   A.m10 * B.m00 + A.m11 * B.m10 + A.m12 * B.m20,
   A.m10 * B.m01 + A.m11 * B.m11 + A.m12 * B.m21,
   A.m10 * B.m02 + A.m11 * B.m12 + A.m12 * B.m22,
   A.m20 * B.m00 + A.m21 * B.m10 + A.m22 * B.m20,
   A.m20 * B.m01 + A.m21 * B.m11 + A.m22 * B.m21,
   A.m20 * B.m02 + A.m21 * B.m12 + A.m22 * B.m22⟩

/-- Matrix applied to a point. -/
def Mat3.app (A : Mat3) (p : Point) : Point :=
  ⟨A.m00 * p.x + A.m01 * p.y + A.m02 * p.z,
   A.m10 * p.x + A.m11 * p.y + A.m12 * p.z,
   A.m20 * p.x + A.m21 * p.y + A.m22 * p.z⟩

/-- Modelled from the spec (data model, Pose): a rigid transform given by a
rotation part and a translation part. -/
structure Pose where
  rot : Mat3
  trans : Point
deriving DecidableEq

/-- Identity pose (the 4x4 identity matrix of the interface). -/
def Pose.id : Pose := ⟨Mat3.id, ⟨0, 0, 0⟩⟩

/-- Composition of two poses. -/
def Pose.comp (A B : Pose) : Pose :=
  ⟨A.rot.mul B.rot, A.rot.app B.trans + A.trans⟩

/-- Inverse of a pose, using that the rotation part is orthonormal. -/
def Pose.inv (T : Pose) : Pose :=
  ⟨T.rot.transpose, -(T.rot.transpose.app T.trans)⟩

/-- Pose applied to a point. -/
def applyPose (T : Pose) (p : Point) : Point := T.rot.app p + T.trans

/-- Modelled from the spec (data model, Config): the flat native parameter
struct `kiss_icp_pybind._KISSConfig` exposed by the pybind module. -/
structure _KISSConfig where
  voxel_size : ℚ
  max_range : ℚ
  min_range : ℚ
  max_points_per_voxel : ℤ
  min_motion_th : ℚ
  initial_threshold : ℚ
  max_num_iterations : ℤ
  convergence_criterion : ℚ
  max_num_threads : ℤ
  deskew : Bool
deriving DecidableEq

/-- Modelled from the spec (data model, VoxelKey): the integer cell index of a
point, floor of each coordinate divided by the voxel size. -/
def voxelKey (voxel_size : ℚ) (p : Point) : ℤ × ℤ × ℤ :=
  ((p.x / voxel_size).floor, (p.y / voxel_size).floor, (p.z / voxel_size).floor)

/-- Modelled from the spec (VoxelGridDownsampler): keep the first point seen
in each occupied voxel, in input order. -/
def voxel_grid (voxel_size : ℚ) (pts : List Point) : List Point :=
  (pts.foldl
    (fun acc p =>
      if voxelKey voxel_size p ∈ acc.1 then acc
      else (voxelKey voxel_size p :: acc.1, acc.2 ++ [p]))
    (([] : List (ℤ × ℤ × ℤ)), ([] : List Point))).2

/-- Modelled from the spec (data model, VoxelHashMap): association list from
voxel keys to insertion-ordered bounded cells. -/
structure VoxelHashMap where
  cells : List ((ℤ × ℤ × ℤ) × List Point)
deriving DecidableEq

/-- Modelled from the spec (VoxelHashMap.insert): append the point to its
cell when capacity remains, silently drop it otherwise. -/
def insertCell (cap : ℕ) (k : ℤ × ℤ × ℤ) (p : Point) :
    List ((ℤ × ℤ × ℤ) × List Point) → List ((ℤ × ℤ × ℤ) × List Point)
  | [] => [(k, [p])]
  | c :: rest =>
      if c.1 = k then
        (if c.2.length < cap then (c.1, c.2 ++ [p]) else c) :: rest
      else c :: insertCell cap k p rest

/-- Modelled from the spec (VoxelHashMap.insert): insert a batch of points. -/
def VoxelHashMap.insertMany (m : VoxelHashMap) (cfg : _KISSConfig)
    (pts : List Point) : VoxelHashMap :=
  pts.foldl
    (fun m p =>
      ⟨insertCell cfg.max_points_per_voxel.toNat (voxelKey cfg.voxel_size p) p m.cells⟩)
    m

/-- Modelled from the spec (VoxelHashMap.remove_far_points): drop entire
cells whose representative point (the first point of the cell) is farther
than max_range from the origin. -/
def VoxelHashMap.removeFar (m : VoxelHashMap) (origin : Point) (max_range : ℚ) :
    VoxelHashMap :=
  ⟨m.cells.filter (fun c => decide (distSq origin (c.2.headD origin) ≤ max_range * max_range))⟩

/-- All points currently stored in the map, cell by cell. -/
def VoxelHashMap.points (m : VoxelHashMap) : List Point :=
  (m.cells.map Prod.snd).flatten

/-- The 27 voxel keys of the 3x3x3 block centered on a key. -/
def neighborKeys (k : ℤ × ℤ × ℤ) : List (ℤ × ℤ × ℤ) :=
  ([-1, 0, 1] : List ℤ).flatMap fun dx =>
    ([-1, 0, 1] : List ℤ).flatMap fun dy =>
      ([-1, 0, 1] : List ℤ).map fun dz => (k.1 + dx, k.2.1 + dy, k.2.2 + dz)

/-- Modelled from the spec (VoxelHashMap.get_correspondences): nearest map
point to the query within the 27 neighboring cells and within the squared
radius, ties broken by insertion order (the strict comparison keeps the
earlier point). -/
def nearestNeighbor (m : VoxelHashMap) (voxel_size maxDistSq : ℚ) (q : Point) :
    Option Point :=
  let cand := (neighborKeys (voxelKey voxel_size q)).flatMap fun k =>
    ((m.cells.find? (fun c => decide (c.1 = k))).map Prod.snd).getD []
  cand.foldl
    (fun best x =>
      match best with
      | none => if distSq q x ≤ maxDistSq then some x else none
      | some b => if distSq q x < distSq q b then some x else some b)
    none

/-- Modelled from the spec (AdaptiveThresholdState): accumulated squared
motion deviations and the number of samples folded in so far. -/
structure AdaptiveThresholdState where
  model_sse : ℚ
  num_samples : ℕ
deriving DecidableEq

/-- Initial adaptive threshold state (cold start). -/
def AdaptiveThresholdState.init : AdaptiveThresholdState := ⟨0, 0⟩

/-- Squared deviation of a rotation from the identity, used as the rotational
part of the motion magnitude. -/
def rotDevSq (A : Mat3) : ℚ :=
  (A.m00 - 1) * (A.m00 - 1) + A.m01 * A.m01 + A.m02 * A.m02 +
  A.m10 * A.m10 + (A.m11 - 1) * (A.m11 - 1) + A.m12 * A.m12 +
  A.m20 * A.m20 + A.m21 * A.m21 + (A.m22 - 1) * (A.m22 - 1)

/-- Modelled from the spec (AdaptiveThresholdEstimator): squared magnitude of
a pose delta, a rotational term scaled by the lever arm max_range plus a
translational term. -/
def modelErrorSq (cfg : _KISSConfig) (delta : Pose) : ℚ :=
  cfg.max_range * cfg.max_range * rotDevSq delta.rot + normSq delta.trans

/-- Modelled from the spec (AdaptiveThresholdEstimator): in cold start the
threshold is initial_threshold; afterwards a multiple (3x) of the standard
deviation of the accumulated statistic.  Squared form, as used for gating. -/
def thresholdSq (cfg : _KISSConfig) (s : AdaptiveThresholdState) : ℚ :=
  if s.num_samples = 0 then cfg.initial_threshold * cfg.initial_threshold
  else 9 * s.model_sse / (s.num_samples : ℚ)

/-- Modelled from the spec (AdaptiveThresholdEstimator): fold the motion
magnitude into the statistic when it exceeds min_motion_th, discard the
observation otherwise. -/
def updateSigma (cfg : _KISSConfig) (s : AdaptiveThresholdState) (delta : Pose) :
    AdaptiveThresholdState :=
  let m2 := modelErrorSq cfg delta
  if cfg.min_motion_th * cfg.min_motion_th < m2 then
    ⟨s.model_sse + m2, s.num_samples + 1⟩
  else s

/-- Modelled from the spec (MotionDeskewer): relative motion between the two
most recent accepted poses, identity if fewer than two frames exist. -/
def relativeDelta (poses : List Pose) : Pose :=
  match poses.reverse with
  | pN :: pN1 :: _ => Pose.comp (Pose.inv pN1) pN
  | _ => Pose.id

/-- Modelled from the spec (MotionDeskewer): linear interpolation of the
relative motion at a timestamp fraction t. -/
def interpPose (delta : Pose) (t : ℚ) : Pose :=
  ⟨⟨1 + t * (delta.rot.m00 - 1), t * delta.rot.m01, t * delta.rot.m02,
    t * delta.rot.m10, 1 + t * (delta.rot.m11 - 1), t * delta.rot.m12,
    t * delta.rot.m20, t * delta.rot.m21, 1 + t * (delta.rot.m22 - 1)⟩,
   ⟨t * delta.trans.x, t * delta.trans.y, t * delta.trans.z⟩⟩

/-- Modelled from the spec (MotionDeskewer): if the deskew flag is disabled
or the timestamps are absent this is a no-op identity pass; otherwise each
point is moved by the inverse of the interpolated motion at its timestamp. -/
def deskew_frame (cfg : _KISSConfig) (poses : List Pose) (timestamps : List ℚ)
    (frame : List Point) : List Point :=
  if timestamps.isEmpty || !cfg.deskew then frame
  else
    let delta := relativeDelta poses
    (frame.zip timestamps).map fun pt =>
      applyPose (Pose.inv (interpPose delta pt.2)) pt.1

/-- Modelled from the spec (preprocessing): keep the points whose distance to
the sensor origin lies strictly between min_range and max_range, compared in
squared form. -/
def inRange (cfg : _KISSConfig) (p : Point) : Bool :=
  decide (cfg.min_range * cfg.min_range < normSq p) &&
  decide (normSq p < cfg.max_range * cfg.max_range)

/-- Modelled from the spec (control flow): deskew then range-filter the raw
frame. -/
def preprocess (cfg : _KISSConfig) (poses : List Pose) (timestamps : List ℚ)
    (frame : List Point) : List Point :=
  (deskew_frame cfg poses timestamps frame).filter (fun p => inRange cfg p)

/-- Modelled from the spec (control flow): the finer downsampling producing
the registration source cloud. -/
def sourcePoints (cfg : _KISSConfig) (cropped : List Point) : List Point :=
  voxel_grid (cfg.voxel_size / 2) cropped

/-- Modelled from the spec (control flow): the coarser downsampling producing
the map-insertion keypoints. -/
def mapKeypoints (cfg : _KISSConfig) (cropped : List Point) : List Point :=
  voxel_grid (cfg.voxel_size * 3 / 2) cropped

/-- Mean of the residuals target - source over the matched pairs. -/
def meanResidual (corr : List (Point × Point)) : Point :=
  let s := corr.foldl (fun acc pq => acc + (pq.2 - pq.1)) (⟨0, 0, 0⟩ : Point)
  let n : ℚ := (corr.length : ℚ)
  ⟨s.x / n, s.y / n, s.z / n⟩

/-- Modelled from the spec (ScanMatcher): fuel-bounded iterative point-to-point
alignment; each round matches the transformed source against the map within
the adaptive threshold, applies the mean residual as a translational
increment, and stops at convergence, at the iteration cap, or immediately
when no correspondence exists. -/
def icpIter (m : VoxelHashMap) (cfg : _KISSConfig) (src : List Point)
    (sigmaSq : ℚ) : ℕ → Pose → Pose
  | 0, T => T
  | Nat.succ n, T =>
      let corr := (src.map (applyPose T)).filterMap fun p =>
        (nearestNeighbor m cfg.voxel_size sigmaSq p).map fun q => (p, q)
      if corr.isEmpty then T
      else
        let inc := meanResidual corr
        let T2 : Pose := ⟨T.rot, T.trans + inc⟩
        if normSq inc ≤ cfg.convergence_criterion * cfg.convergence_criterion then T2
        else icpIter m cfg src sigmaSq n T2

/-- Modelled from the spec (OdometryPipeline): the state owned by the native
pipeline object `kiss_icp_pybind._KissICP`. -/
structure _KissICP where
  config : _KISSConfig
  poses : List Pose
  map : VoxelHashMap
  sigma : AdaptiveThresholdState
deriving DecidableEq

/-- Modelled from the spec (OdometryPipeline): the freshly constructed
pipeline for a given configuration. -/
def initPipeline (cfg : _KISSConfig) : _KissICP :=
  ⟨cfg, [], ⟨[]⟩, AdaptiveThresholdState.init⟩

/-- Modelled from the spec (last_pose): most recently appended trajectory
entry, identity if no frame was processed yet. -/
def _last_pose (st : _KissICP) : Pose := (st.poses.getLast?).getD Pose.id

/-- Modelled from the spec (local_map): snapshot of all points currently
retained by the voxel hash map. -/
def _local_map (st : _KissICP) : List Point := st.map.points

/-- Modelled from the spec (reset): back to the initial state, the
configuration is retained. -/
def _reset (st : _KissICP) : _KissICP := initPipeline st.config

/-- Modelled from the spec (ScanMatcher): initial guess extrapolated from the
last two accepted poses under a constant-velocity assumption. -/
def predictionPose (st : _KissICP) : Pose :=
  Pose.comp (_last_pose st) (relativeDelta st.poses)

/-- Modelled from the spec (register_frame output): the deskewed and
range-filtered frame; empty input degrades to empty output. -/
def outFrame (st : _KissICP) (frame : List Point) (timestamps : List ℚ) :
    List Point :=
  if frame = [] then [] else preprocess st.config st.poses timestamps frame

/-- Modelled from the spec (register_frame): the pose produced for the frame;
for an empty input the pose is unchanged, otherwise the scan matcher refines
the constant-velocity prediction. -/
def nextPose (st : _KissICP) (frame : List Point) (timestamps : List ℚ) : Pose :=
  if frame = [] then _last_pose st
  else
    icpIter st.map st.config
      (sourcePoints st.config (preprocess st.config st.poses timestamps frame))
      (thresholdSq st.config st.sigma)
      st.config.max_num_iterations.toNat
      (predictionPose st)

/-- Modelled from the spec (register_frame output): the subset of the source
cloud that found a correspondence in the map at the final pose. -/
def outKeypoints (st : _KissICP) (frame : List Point) (timestamps : List ℚ) :
    List Point :=
  (sourcePoints st.config (outFrame st frame timestamps)).filter fun p =>
    (nearestNeighbor st.map st.config.voxel_size (thresholdSq st.config st.sigma)
      (applyPose (nextPose st frame timestamps) p)).isSome

/-- Modelled from the spec (map update): insert the transformed keypoints and
prune cells far from the new pose; an empty input performs no map update. -/
def mapUpdateStep (st : _KissICP) (frame : List Point) (timestamps : List ℚ) :
    VoxelHashMap :=
  if frame = [] then st.map
  else
    (st.map.insertMany st.config
        ((mapKeypoints st.config (outFrame st frame timestamps)).map
          (applyPose (nextPose st frame timestamps)))).removeFar
      (nextPose st frame timestamps).trans st.config.max_range

/-- Modelled from the spec (adaptive threshold update): fold in the accepted
pose delta; an empty input leaves the estimator state as it was. -/
def thresholdUpdateStep (st : _KissICP) (frame : List Point)
    (timestamps : List ℚ) : AdaptiveThresholdState :=
  if frame = [] then st.sigma
  else
    updateSigma st.config st.sigma
      (Pose.comp (Pose.inv (_last_pose st)) (nextPose st frame timestamps))

/-- Modelled from the spec (register_frame): the full per-frame sequence of
the native pipeline; returns the pair of outputs and the successor state.
The function is total: degenerate inputs degrade gracefully, nothing is
raised. -/
def _register_frame (st : _KissICP) (frame : List Point) (timestamps : List ℚ) :
    (List Point × List Point) × _KissICP :=
  ((outFrame st frame timestamps, outKeypoints st frame timestamps),
   { st with
      poses := st.poses ++ [nextPose st frame timestamps],
      map := mapUpdateStep st frame timestamps,
      sigma := thresholdUpdateStep st frame timestamps })

end Native

namespace ConfigPy

/-- Modelled from the spec: the data sub-configuration of the missing module
`kiss_icp/config/config.py`, holding max_range, min_range and the deskew
flag; defaults mirror the flat dataclass of `kiss_icp.py`. -/
structure DataConfig where
  max_range : ℚ := 100
  min_range : ℚ := 0
  deskew : Bool := true
deriving DecidableEq

/-- Modelled from the spec: the mapping sub-configuration of the missing
module `kiss_icp/config/config.py`; voxel_size is optional and defaulted by
load_config when unset. -/
structure MappingConfig where
  voxel_size : Option ℚ := none
  max_points_per_voxel : ℤ := 20
deriving DecidableEq

/-- Modelled from the spec: the registration sub-configuration of the missing
module `kiss_icp/config/config.py`. -/
structure RegistrationConfig where
  max_num_iterations : ℤ := 500
  convergence_criterion : ℚ := 1 / 10000
  max_num_threads : ℤ := 0
deriving DecidableEq

/-- Modelled from the spec: the adaptive-threshold sub-configuration of the
missing module `kiss_icp/config/config.py`. -/
structure AdaptiveThresholdConfig where
  initial_threshold : ℚ := 2
  min_motion_th : ℚ := 1 / 10
deriving DecidableEq

/-- Shallow embedding of class KISSConfig of `config/parser.py`: the nested
pydantic settings model. -/
structure KISSConfig where
  out_dir : String := "results"
  data : DataConfig := {}
  registration : RegistrationConfig := {}
  mapping : MappingConfig := {}
  adaptive_threshold : AdaptiveThresholdConfig := {}
deriving DecidableEq

/-- Modelled from the spec: the environment `_yaml_source` runs in, namely
whether the PyYAML module is importable and, for each path, the nested
configuration that pydantic would construct from the parsed yaml mapping
(none standing for an empty or all-empty yaml file). -/
structure Env where
  yamlInstalled : Bool
  fileData : String → Option KISSConfig

/-- Shallow embedding of `_yaml_source` of `config/parser.py`: with no config
file the yaml module is never imported and the empty mapping is returned;
with a file, a missing PyYAML prints an error and exits the process with
status 1 (the error value), otherwise the parsed contents are returned. -/
def _yaml_source (env : Env) (config_file : Option String) :
    Except ℕ (Option KISSConfig) :=
  match config_file with
  | none => Except.ok none
  | some path =>
      if env.yamlInstalled then Except.ok (env.fileData path)
      else Except.error 1

/-- Shallow embedding of the min_range check of `load_config`: when
max_range < min_range a warning is printed (the Bool of the result) and
min_range is forced to 0.0. -/
def fixMinRange (config : KISSConfig) : KISSConfig × Bool :=
  if config.data.max_range < config.data.min_range then
    ({ config with data := { config.data with min_range := 0 } }, true)
  else (config, false)

/-- Shallow embedding of the voxel_size defaulting of `load_config`: an unset
voxel_size becomes max_range / 100.0. -/
def fixVoxelSize (config : KISSConfig) : KISSConfig :=
  match config.mapping.voxel_size with
  | none =>
      { config with
          mapping := { config.mapping with
                        voxel_size := some (config.data.max_range / 100) } }
  | some _ => config

/-- The two normalization steps of `load_config` after construction, with the
emitted-warning flag. -/
def load_config_adjust (config : KISSConfig) : KISSConfig × Bool :=
  let r := fixMinRange config
  (fixVoxelSize r.1, r.2)

/-- Shallow embedding of `load_config` of `config/parser.py`: construct the
nested configuration from the optional yaml source and normalize it. -/
def load_config (env : Env) (config_file : Option String) :
    Except ℕ (KISSConfig × Bool) :=
  (_yaml_source env config_file).map fun d =>
    load_config_adjust (d.getD {})

/-- Shallow embedding of `to_kiss_config` of `config/parser.py`: field-by-field
copy of the nested configuration into the flat native struct.  Assigning an
unset voxel_size to the native double field is a type error in the pybind
layer, embedded as none. -/
def to_kiss_config (config : KISSConfig) : Option Native._KISSConfig :=
  match config.mapping.voxel_size with
  | none => none
  | some v =>
      some
        { voxel_size := v,
          max_range := config.data.max_range,
          min_range := config.data.min_range,
          max_points_per_voxel := config.mapping.max_points_per_voxel,
          min_motion_th := config.adaptive_threshold.min_motion_th,
          initial_threshold := config.adaptive_threshold.initial_threshold,
          max_num_iterations := config.registration.max_num_iterations,
          convergence_criterion := config.registration.convergence_criterion,
          max_num_threads := config.registration.max_num_threads,
          deskew := config.data.deskew }

end ConfigPy

namespace CorePy

/-- Element type tag of a numpy array crossing the interface. -/
inductive DType
  | float32
  | float64
  | int32
  | int64
deriving DecidableEq

/-- A numpy point array as it reaches the wrapper: an element type tag plus
the point values it denotes. -/
structure NpArray where
  dtype : DType
  data : List Native.Point
deriving DecidableEq

/-- Shallow embedding of `np.asarray(frame, dtype=np.float64)`: the array
reinterpreted with the requested element type; the denoted values are kept
(the model does not track rounding of the widening conversion). -/
def np_asarray (a : NpArray) (dt : DType) : NpArray := ⟨dt, a.data⟩

/-- Modelled from the spec: the pybind constructor
`kiss_icp_pybind._Vector3dVector`, which accepts a double-precision array and
yields the native point vector; any other element type is a type mismatch. -/
def _Vector3dVector (a : NpArray) : Option (List Native.Point) :=
  if a.dtype = DType.float64 then some a.data else none

/-- Shallow embedding of `_to_cpp_points` of `kiss_icp.py`: convert the frame
to float64 and hand it to the native vector constructor. -/
def _to_cpp_points (frame : NpArray) : List Native.Point :=
  (_Vector3dVector (np_asarray frame DType.float64)).getD []

/-- Shallow embedding of the dataclass KISSConfig of `kiss_icp.py`, with its
field defaults. -/
structure KISSConfig where
  voxel_size : ℚ := 1
  max_range : ℚ := 100
  min_range : ℚ := 0
  max_points_per_voxel : ℤ := 20
  min_motion_th : ℚ := 1 / 10
  initial_threshold : ℚ := 2
  max_num_iterations : ℤ := 500
  convergence_criterion : ℚ := 1 / 10000
  max_num_threads : ℤ := 0
  deskew : Bool := true
deriving DecidableEq

/-- Shallow embedding of `KISSConfig._to_cpp` of `kiss_icp.py`: field-by-field
copy of the flat dataclass into the native struct. -/
def KISSConfig._to_cpp (self : KISSConfig) : Native._KISSConfig :=
  { voxel_size := self.voxel_size,
    max_range := self.max_range,
    min_range := self.min_range,
    max_points_per_voxel := self.max_points_per_voxel,
    min_motion_th := self.min_motion_th,
    initial_threshold := self.initial_threshold,
    max_num_iterations := self.max_num_iterations,
    convergence_criterion := self.convergence_criterion,
    max_num_threads := self.max_num_threads,
    deskew := self.deskew }

/-- Shallow embedding of class KissICP of `kiss_icp.py`: the stored config
and the native pipeline object. -/
structure KissICP where
  config : KISSConfig
  _pipeline : Native._KissICP

/-- Shallow embedding of `KissICP.__init__`: default the config when absent
and construct the native pipeline from its flat conversion. -/
def KissICP.init (config : Option KISSConfig) : KissICP :=
  let c := config.getD {}
  ⟨c, Native.initPipeline c._to_cpp⟩

/-- Shallow embedding of `KissICP.register_frame`: convert the points, pass
an empty timestamp list when none was given, delegate to the native pipeline
and return the output pair next to the updated wrapper. -/
def KissICP.register_frame (self : KissICP) (frame : NpArray)
    (timestamps : Option (List ℚ)) :
    (List Native.Point × List Native.Point) × KissICP :=
  let points := _to_cpp_points frame
  let ts_list := timestamps.getD []
  let r := Native._register_frame self._pipeline points ts_list
  (r.1, { self with _pipeline := r.2 })

/-- Shallow embedding of the `KissICP.last_pose` property. -/
def KissICP.last_pose (self : KissICP) : Native.Pose :=
  Native._last_pose self._pipeline

/-- Shallow embedding of the `KissICP.local_map` property. -/
def KissICP.local_map (self : KissICP) : List Native.Point :=
  Native._local_map self._pipeline

/-- Shallow embedding of `KissICP.reset`: reset the native pipeline, leaving
the stored config untouched. -/
def KissICP.reset (self : KissICP) : KissICP :=
  { self with _pipeline := Native._reset self._pipeline }

/-- Shallow embedding of the module-level `voxel_down_sample` of
`kiss_icp.py`. -/
def voxel_down_sample (frame : NpArray) (voxel_size : ℚ) : List Native.Point :=
  Native.voxel_grid voxel_size (_to_cpp_points frame)

end CorePy

section Helpers

lemma fixMinRange_mapping (c : ConfigPy.KISSConfig) :
    (ConfigPy.fixMinRange c).1.mapping = c.mapping := by
  unfold ConfigPy.fixMinRange
  split_ifs <;> rfl

lemma fixMinRange_max_range (c : ConfigPy.KISSConfig) :
    (ConfigPy.fixMinRange c).1.data.max_range = c.data.max_range := by
  unfold ConfigPy.fixMinRange
  split_ifs <;> rfl

lemma fixVoxelSize_data (c : ConfigPy.KISSConfig) :
    (ConfigPy.fixVoxelSize c).data = c.data := by
  unfold ConfigPy.fixVoxelSize
  split <;> rfl

lemma fixVoxelSize_voxel_none (c : ConfigPy.KISSConfig)
    (h : c.mapping.voxel_size = none) :
    (ConfigPy.fixVoxelSize c).mapping.voxel_size
      = some (c.data.max_range / 100) := by
  simp [ConfigPy.fixVoxelSize, h]

lemma fixVoxelSize_voxel_some (c : ConfigPy.KISSConfig) (v : ℚ)
    (h : c.mapping.voxel_size = some v) :
    (ConfigPy.fixVoxelSize c).mapping.voxel_size = some v := by
  simp [ConfigPy.fixVoxelSize, h]

lemma outFrame_nil (st : Native._KissICP) (ts : List ℚ) :
    Native.outFrame st [] ts = [] := rfl

lemma outKeypoints_nil (st : Native._KissICP) (ts : List ℚ) :
    Native.outKeypoints st [] ts = [] := rfl

lemma nextPose_nil (st : Native._KissICP) (ts : List ℚ) :
    Native.nextPose st [] ts = Native._last_pose st := rfl

lemma mapUpdateStep_nil (st : Native._KissICP) (ts : List ℚ) :
    Native.mapUpdateStep st [] ts = st.map := rfl

lemma thresholdUpdateStep_nil (st : Native._KissICP) (ts : List ℚ) :
    Native.thresholdUpdateStep st [] ts = st.sigma := rfl

end Helpers

/-- A loaded configuration whose max_range is negative, as a yaml file can
produce. -/
def cBadRange : ConfigPy.KISSConfig :=
  { data := { max_range := -1, min_range := 0, deskew := true } }

/-- An environment whose yaml file parses to cBadRange. -/
def envBadRange : ConfigPy.Env :=
  { yamlInstalled := true, fileData := fun _ => some cBadRange }

/-- C1 counterexample: load_config, applied to loaded data with
max_range = -1 and min_range = 0, takes the corrective branch (it even warns
and forces min_range to 0.0), yet the returned configuration still violates
max_range >= min_range, because the forced value 0 exceeds the negative
max_range.  The universal invariant of the claim is therefore false. -/
theorem C1_range_invariant_counterexample :
    ConfigPy.load_config envBadRange (some "kiss_icp.yaml")
      = Except.ok (ConfigPy.load_config_adjust cBadRange) ∧
    (ConfigPy.load_config_adjust cBadRange).2 = true ∧
    (ConfigPy.load_config_adjust cBadRange).1.data.min_range = 0 ∧
    (ConfigPy.load_config_adjust cBadRange).1.data.max_range
      < (ConfigPy.load_config_adjust cBadRange).1.data.min_range := by
  refine ⟨rfl, ?_, ?_, ?_⟩ <;>
    norm_num [ConfigPy.load_config_adjust, ConfigPy.fixMinRange,
      ConfigPy.fixVoxelSize, cBadRange]

/-- C1 (amended): for every loaded configuration whose max_range is
nonnegative, the configuration returned by load_config satisfies
max_range >= min_range; whenever the loaded data has max_range < min_range a
corrective warning is printed and min_range is forced to 0.0 instead of
raising a failure, and otherwise min_range is left unchanged.  (For a
negative loaded max_range the forced adjustment still leaves
max_range < min_range, as the counterexample shows.) -/
theorem C1_range_invariant (c : ConfigPy.KISSConfig)
    (h : 0 ≤ c.data.max_range) :
    (ConfigPy.load_config_adjust c).1.data.min_range
        ≤ (ConfigPy.load_config_adjust c).1.data.max_range ∧
    (c.data.max_range < c.data.min_range →
        (ConfigPy.load_config_adjust c).1.data.min_range = 0 ∧
        (ConfigPy.load_config_adjust c).2 = true) ∧
    (c.data.min_range ≤ c.data.max_range →
        (ConfigPy.load_config_adjust c).1.data.min_range = c.data.min_range ∧
        (ConfigPy.load_config_adjust c).2 = false) := by
  have hd : (ConfigPy.load_config_adjust c).1.data = (ConfigPy.fixMinRange c).1.data := by
    show (ConfigPy.fixVoxelSize (ConfigPy.fixMinRange c).1).data = _
    exact fixVoxelSize_data _
  have hw : (ConfigPy.load_config_adjust c).2 = (ConfigPy.fixMinRange c).2 := rfl
  rw [hd, hw]
  unfold ConfigPy.fixMinRange
  split_ifs with hlt
  · exact ⟨h, fun _ => ⟨rfl, rfl⟩, fun hle => absurd hlt (not_lt.mpr hle)⟩
  · exact ⟨not_lt.mp hlt, fun hlt2 => absurd hlt2 hlt, fun _ => ⟨rfl, rfl⟩⟩

/-- A loaded configuration with max_range = 0 and min_range = 5, exercising
the corrective branch with a nonnegative max_range. -/
def cZeroRange : ConfigPy.KISSConfig :=
  { data := { max_range := 0, min_range := 5, deskew := true } }

/-- C1 witness: the amended invariant evaluated on cZeroRange. -/
theorem C1_range_invariant_witness :
    (0 : ℚ) ≤ cZeroRange.data.max_range ∧
    ((ConfigPy.load_config_adjust cZeroRange).1.data.min_range
        ≤ (ConfigPy.load_config_adjust cZeroRange).1.data.max_range ∧
     (cZeroRange.data.max_range < cZeroRange.data.min_range →
        (ConfigPy.load_config_adjust cZeroRange).1.data.min_range = 0 ∧
        (ConfigPy.load_config_adjust cZeroRange).2 = true) ∧
     (cZeroRange.data.min_range ≤ cZeroRange.data.max_range →
        (ConfigPy.load_config_adjust cZeroRange).1.data.min_range
          = cZeroRange.data.min_range ∧
        (ConfigPy.load_config_adjust cZeroRange).2 = false)) :=
  ⟨le_refl 0, C1_range_invariant cZeroRange (le_refl 0)⟩

/-- C2: when register_frame is called without timestamps, the wrapper passes
the empty timestamp list to the native pipeline, the deskewing pass is the
identity no matter what the deskew flag says, and the first output equals the
range-filtered input frame. -/
theorem C2_no_timestamps_noop_deskew :
    (∀ (self : CorePy.KissICP) (frame : CorePy.NpArray),
        self.register_frame frame none
          = (let r := Native._register_frame self._pipeline
                (CorePy._to_cpp_points frame) []
             (r.1, { self with _pipeline := r.2 }))) ∧
    (∀ (cfg : Native._KISSConfig) (poses : List Native.Pose)
        (pts : List Native.Point),
        Native.deskew_frame cfg poses [] pts = pts) ∧
    (∀ (self : CorePy.KissICP) (frame : CorePy.NpArray),
        (self.register_frame frame none).1.1
          = (CorePy._to_cpp_points frame).filter
              (fun p => Native.inRange self._pipeline.config p)) := by
  refine ⟨fun self frame => rfl, fun cfg poses pts => rfl, fun self frame => ?_⟩
  show Native.outFrame self._pipeline (CorePy._to_cpp_points frame) [] = _
  unfold Native.outFrame Native.preprocess
  split_ifs with h
  · rw [h]; rfl
  · rfl

/-- C3: the two configuration shapes agree field by field: converting a
nested configuration whose voxel_size is set copies each of the ten fields
from the corresponding sub-config into the flat native struct, and the flat
dataclass conversion _to_cpp copies all ten fields unchanged. -/
theorem C3_config_shapes_agree :
    (∀ (c : ConfigPy.KISSConfig) (v : ℚ), c.mapping.voxel_size = some v →
        ConfigPy.to_kiss_config c
          = some
              { voxel_size := v,
                max_range := c.data.max_range,
                min_range := c.data.min_range,
                max_points_per_voxel := c.mapping.max_points_per_voxel,
                min_motion_th := c.adaptive_threshold.min_motion_th,
                initial_threshold := c.adaptive_threshold.initial_threshold,
                max_num_iterations := c.registration.max_num_iterations,
                convergence_criterion := c.registration.convergence_criterion,
                max_num_threads := c.registration.max_num_threads,
                deskew := c.data.deskew }) ∧
    (∀ d : CorePy.KISSConfig,
        d._to_cpp
          = { voxel_size := d.voxel_size,
              max_range := d.max_range,
              min_range := d.min_range,
              max_points_per_voxel := d.max_points_per_voxel,
              min_motion_th := d.min_motion_th,
              initial_threshold := d.initial_threshold,
              max_num_iterations := d.max_num_iterations,
              convergence_criterion := d.convergence_criterion,
              max_num_threads := d.max_num_threads,
              deskew := d.deskew }) := by
  refine ⟨fun c v h => ?_, fun d => rfl⟩
  simp [ConfigPy.to_kiss_config, h]

/-- A nested configuration whose voxel_size is set. -/
def cNestedEx : ConfigPy.KISSConfig :=
  { mapping := { voxel_size := some 1, max_points_per_voxel := 20 } }

/-- C3 witness: the field-by-field copy evaluated on cNestedEx. -/
theorem C3_config_shapes_agree_witness :
    ConfigPy.to_kiss_config cNestedEx
      = some
          { voxel_size := 1,
            max_range := cNestedEx.data.max_range,
            min_range := cNestedEx.data.min_range,
            max_points_per_voxel := cNestedEx.mapping.max_points_per_voxel,
            min_motion_th := cNestedEx.adaptive_threshold.min_motion_th,
            initial_threshold := cNestedEx.adaptive_threshold.initial_threshold,
            max_num_iterations := cNestedEx.registration.max_num_iterations,
            convergence_criterion := cNestedEx.registration.convergence_criterion,
            max_num_threads := cNestedEx.registration.max_num_threads,
            deskew := cNestedEx.data.deskew } :=
  C3_config_shapes_agree.1 cNestedEx 1 rfl

/-- C4: load_config defaults an unset voxel_size to max_range / 100.0 and
returns a set voxel_size unchanged. -/
theorem C4_voxel_size_default (c : ConfigPy.KISSConfig) :
    (c.mapping.voxel_size = none →
        (ConfigPy.load_config_adjust c).1.mapping.voxel_size
          = some (c.data.max_range / 100)) ∧
    (∀ v : ℚ, c.mapping.voxel_size = some v →
        (ConfigPy.load_config_adjust c).1.mapping.voxel_size = some v) := by
  constructor
  · intro h
    show (ConfigPy.fixVoxelSize (ConfigPy.fixMinRange c).1).mapping.voxel_size = _
    rw [fixVoxelSize_voxel_none (ConfigPy.fixMinRange c).1
          (by rw [fixMinRange_mapping]; exact h),
        fixMinRange_max_range]
  · intro v h
    show (ConfigPy.fixVoxelSize (ConfigPy.fixMinRange c).1).mapping.voxel_size = _
    exact fixVoxelSize_voxel_some (ConfigPy.fixMinRange c).1 v
      (by rw [fixMinRange_mapping]; exact h)

/-- The all-default nested configuration, whose voxel_size is unset. -/
def cUnsetVoxel : ConfigPy.KISSConfig := {}

/-- C4 witness: the voxel_size defaulting evaluated on the all-default
configuration. -/
theorem C4_voxel_size_default_witness :
    cUnsetVoxel.mapping.voxel_size = none ∧
    (ConfigPy.load_config_adjust cUnsetVoxel).1.mapping.voxel_size
      = some (cUnsetVoxel.data.max_range / 100) :=
  ⟨rfl, (C4_voxel_size_default cUnsetVoxel).1 rfl⟩

/-- C5: a freshly constructed pipeline and a reset pipeline report the
identity pose and an empty local map, and once the trajectory is nonempty
last_pose is its most recently appended entry. -/
theorem C5_last_pose_lifecycle :
    (∀ cfg : Option CorePy.KISSConfig,
        (CorePy.KissICP.init cfg).last_pose = Native.Pose.id ∧
        (CorePy.KissICP.init cfg).local_map = []) ∧
    (∀ self : CorePy.KissICP,
        self.reset.last_pose = Native.Pose.id ∧ self.reset.local_map = []) ∧
    (∀ (self : CorePy.KissICP) (ps : List Native.Pose) (p : Native.Pose),
        self._pipeline.poses = ps ++ [p] → self.last_pose = p) := by
  refine ⟨fun cfg => ⟨rfl, rfl⟩, fun self => ⟨rfl, rfl⟩, fun self ps p h => ?_⟩
  show (self._pipeline.poses.getLast?).getD Native.Pose.id = p
  rw [h, List.getLast?_concat]
  rfl

/-- A wrapper whose trajectory holds exactly one pose. -/
def selfOnePose : CorePy.KissICP :=
  { config := {},
    _pipeline :=
      { config := CorePy.KISSConfig._to_cpp {},
        poses := [Native.Pose.id],
        map := ⟨[]⟩,
        sigma := Native.AdaptiveThresholdState.init } }

/-- C5 witness: the most-recently-appended clause evaluated on a trajectory
of length one. -/
theorem C5_last_pose_lifecycle_witness :
    selfOnePose._pipeline.poses = [] ++ [Native.Pose.id] ∧
    selfOnePose.last_pose = Native.Pose.id :=
  ⟨rfl, C5_last_pose_lifecycle.2.2 selfOnePose [] Native.Pose.id rfl⟩

/-- C6: reset clears the trajectory, the voxel hash map and the adaptive
threshold state back to their initial values, and leaves both the stored
Python config and the native config unchanged in every field. -/
theorem C6_reset_retains_config (self : CorePy.KissICP) :
    self.reset.config = self.config ∧
    self.reset._pipeline.config = self._pipeline.config ∧
    self.reset._pipeline.poses = [] ∧
    self.reset._pipeline.map = (⟨[]⟩ : Native.VoxelHashMap) ∧
    self.reset._pipeline.sigma = Native.AdaptiveThresholdState.init :=
  ⟨rfl, rfl, rfl, rfl, rfl⟩

/-- C7: an empty input point cloud yields empty outputs, leaves last_pose and
local_map unchanged and retains the config; the embedding is a total
function, so no exception can be raised. -/
theorem C7_empty_input (self : CorePy.KissICP) (frame : CorePy.NpArray)
    (ts : Option (List ℚ)) (h : frame.data = []) :
    (self.register_frame frame ts).1 = ([], []) ∧
    (self.register_frame frame ts).2.last_pose = self.last_pose ∧
    (self.register_frame frame ts).2.local_map = self.local_map ∧
    (self.register_frame frame ts).2.config = self.config := by
  have hp : CorePy._to_cpp_points frame = [] := by
    simp [CorePy._to_cpp_points, CorePy._Vector3dVector, CorePy.np_asarray, h]
  refine ⟨?_, ?_, ?_, rfl⟩
  · show (Native.outFrame self._pipeline (CorePy._to_cpp_points frame) (ts.getD []),
          Native.outKeypoints self._pipeline (CorePy._to_cpp_points frame) (ts.getD []))
        = ([], [])
    rw [hp, outFrame_nil, outKeypoints_nil]
  · show ((self._pipeline.poses
          ++ [Native.nextPose self._pipeline (CorePy._to_cpp_points frame) (ts.getD [])]).getLast?).getD
        Native.Pose.id = self.last_pose
    rw [List.getLast?_concat, hp, nextPose_nil]
    rfl
  · show (Native.mapUpdateStep self._pipeline (CorePy._to_cpp_points frame) (ts.getD [])).points
        = self.local_map
    rw [hp, mapUpdateStep_nil]
    rfl

/-- A freshly constructed wrapper for the empty-input witness. -/
def selfFresh : CorePy.KissICP := CorePy.KissICP.init none

/-- An empty point array, deliberately not of float64 element type. -/
def emptyArr : CorePy.NpArray := ⟨CorePy.DType.float32, []⟩

/-- C7 witness: the empty-input contract evaluated on a fresh wrapper. -/
theorem C7_empty_input_witness :
    emptyArr.data = [] ∧
    ((selfFresh.register_frame emptyArr none).1 = ([], []) ∧
     (selfFresh.register_frame emptyArr none).2.last_pose = selfFresh.last_pose ∧
     (selfFresh.register_frame emptyArr none).2.local_map = selfFresh.local_map ∧
     (selfFresh.register_frame emptyArr none).2.config = selfFresh.config) :=
  ⟨rfl, C7_empty_input selfFresh emptyArr none rfl⟩

/-- C8: every call to register_frame returns the pair of the deskewed frame
and the matched keypoints, in that order, appends exactly one pose to the
trajectory (the new last_pose), and replaces the map and the adaptive
threshold state by their per-frame update steps; the config is untouched. -/
theorem C8_register_frame_effects (self : CorePy.KissICP)
    (frame : CorePy.NpArray) (ts : Option (List ℚ)) :
    (self.register_frame frame ts).1
      = (Native.outFrame self._pipeline (CorePy._to_cpp_points frame) (ts.getD []),
         Native.outKeypoints self._pipeline (CorePy._to_cpp_points frame) (ts.getD [])) ∧
    (self.register_frame frame ts).2._pipeline.poses
      = self._pipeline.poses ++ [(self.register_frame frame ts).2.last_pose] ∧
    (self.register_frame frame ts).2._pipeline.map
      = Native.mapUpdateStep self._pipeline (CorePy._to_cpp_points frame) (ts.getD []) ∧
    (self.register_frame frame ts).2._pipeline.sigma
      = Native.thresholdUpdateStep self._pipeline (CorePy._to_cpp_points frame) (ts.getD []) ∧
    (self.register_frame frame ts).2._pipeline.config = self._pipeline.config := by
  refine ⟨rfl, ?_, rfl, rfl, rfl⟩
  have hl : (self.register_frame frame ts).2.last_pose
      = Native.nextPose self._pipeline (CorePy._to_cpp_points frame) (ts.getD []) := by
    show ((self._pipeline.poses
          ++ [Native.nextPose self._pipeline (CorePy._to_cpp_points frame) (ts.getD [])]).getLast?).getD
        Native.Pose.id = _
    rw [List.getLast?_concat]
    rfl
  rw [hl]
  rfl

/-- C9: all geometry crossing into the core is double precision: the
conversion helper first reinterprets any input array as float64, the native
vector constructor then accepts it and receives exactly the array's points,
and both register_frame and voxel_down_sample route their input through this
helper. -/
theorem C9_double_precision :
    (∀ a : CorePy.NpArray,
        (CorePy.np_asarray a CorePy.DType.float64).dtype = CorePy.DType.float64) ∧
    (∀ a : CorePy.NpArray,
        CorePy._Vector3dVector (CorePy.np_asarray a CorePy.DType.float64)
          = some a.data) ∧
    (∀ (self : CorePy.KissICP) (frame : CorePy.NpArray) (ts : Option (List ℚ)),
        self.register_frame frame ts
          = (let r := Native._register_frame self._pipeline
                (CorePy._to_cpp_points frame) (ts.getD [])
             (r.1, { self with _pipeline := r.2 }))) ∧
    (∀ (frame : CorePy.NpArray) (v : ℚ),
        CorePy.voxel_down_sample frame v
          = Native.voxel_grid v (CorePy._to_cpp_points frame)) :=
  ⟨fun _ => rfl, fun _ => rfl, fun _ _ _ => rfl, fun _ _ => rfl⟩

/-- C10: with no configuration file, load_config succeeds and returns the
normalized all-default configuration in every environment, in particular
whether or not PyYAML is installed; the exit-1 branch of _yaml_source is
taken exactly when a file is supplied and PyYAML is missing. -/
theorem C10_no_yaml_required :
    (∀ env : ConfigPy.Env,
        ConfigPy.load_config env none
          = Except.ok (ConfigPy.load_config_adjust {})) ∧
    (∀ (env : ConfigPy.Env) (p : String), env.yamlInstalled = false →
        ConfigPy._yaml_source env (some p) = Except.error 1) ∧
    (∀ (env : ConfigPy.Env) (p : String), env.yamlInstalled = true →
        ConfigPy._yaml_source env (some p) = Except.ok (env.fileData p)) := by
  refine ⟨fun env => rfl, fun env p h => ?_, fun env p h => ?_⟩
  · simp [ConfigPy._yaml_source, h]
  · simp [ConfigPy._yaml_source, h]

/-- An environment without PyYAML. -/
def envNoYaml : ConfigPy.Env := { yamlInstalled := false, fileData := fun _ => none }

/-- C10 witness: loading without a file succeeds in the PyYAML-free
environment, while supplying a file there exits with status 1. -/
theorem C10_no_yaml_required_witness :
    envNoYaml.yamlInstalled = false ∧
    ConfigPy.load_config envNoYaml none
      = Except.ok (ConfigPy.load_config_adjust {}) ∧
    ConfigPy._yaml_source envNoYaml (some "kiss_icp.yaml") = Except.error 1 :=
  ⟨rfl, C10_no_yaml_required.1 envNoYaml,
   C10_no_yaml_required.2.1 envNoYaml "kiss_icp.yaml" rfl⟩
